import Mathlib

/-!
Verification of the SIPP police record-management system's core:
authentication / session exclusivity, role-based authorization,
detainee registration and dynamic search composition, and the
admin user-directory operations.

The definitions below are a shallow embedding of the TypeScript
source (`src/server/routes.ts`, `src/server/storage.ts`,
`src/shared/schema.ts`, and the auth module).  The relational store
is modelled as insertion-ordered lists of rows; timestamps are
naturals threaded as an explicit `now` argument; HTTP outcomes are
the numeric status codes the handlers produce.
-/

namespace SIPP

/-- A persisted express session: session id plus the `userId` field the
login handler stores on it (absent until a login succeeds). -/
structure Session where
  sid : String
  userId : Option Nat
  deriving DecidableEq, Repr

/-- Row of the `users` table.  The columns mirror `shared/schema.ts`
together with the `status` / `suspendedUntil` / `suspendedReason` /
`activeSessionId` columns that `server/storage.ts` reads and writes
(`suspendUser`, `reactivateUser`, `updateUserSession`). -/
structure User where
  id : Nat
  username : String
  password : String
  firstName : Option String := none
  lastName : Option String := none
  email : Option String := none
  role : String := "officer"
  status : String := "active"
  suspendedUntil : Option Nat := none
  suspendedReason : Option String := none
  activeSessionId : Option String := none
  profileImageUrl : Option String := none
  createdAt : Nat := 0
  updatedAt : Nat := 0
  deriving DecidableEq, Repr

/-- Row of the `detainees` table (`shared/schema.ts`). -/
structure Detainee where
  id : Nat
  fullName : String
  cedula : String
  birthDate : String
  state : String
  municipality : String
  parish : String
  address : String
  registro : Option String := none
  phone : Option String := none
  photoUrl : Option String := none
  idDocumentUrl : Option String := none
  registeredBy : Nat
  createdAt : Nat := 0
  updatedAt : Nat := 0
  deriving DecidableEq, Repr

/-- Row of the `search_logs` table. -/
structure SearchLog where
  id : Nat
  userId : Nat
  searchTerm : String
  resultsCount : Nat
  createdAt : Nat := 0
  deriving DecidableEq, Repr

/-- Row of the `activity_logs` table. -/
structure ActivityLog where
  id : Nat
  userId : Nat
  action : String
  description : Option String := none
  createdAt : Nat := 0
  deriving DecidableEq, Repr

/-- The relational store plus the session store: insertion-ordered
lists of rows and the serial-id counters. -/
structure DB where
  users : List User := []
  detainees : List Detainee := []
  searchLogs : List SearchLog := []
  activityLogs : List ActivityLog := []
  sessions : List Session := []
  nextDetaineeId : Nat := 1
  nextSearchLogId : Nat := 1
  nextActivityLogId : Nat := 1
  deriving DecidableEq, Repr

/-! ## Storage-layer operations (`server/storage.ts`) -/

/-- `storage.getUser(id)`: first `users` row with the given id. -/
def getUser (db : DB) (id : Nat) : Option User :=
  db.users.find? (fun u => u.id == id)

/-- `storage.getUserByUsername(username)`. -/
def getUserByUsername (db : DB) (username : String) : Option User :=
  db.users.find? (fun u => u.username == username)

/-- The per-row update of `storage.updateUserSession`. -/
def sessionRow (userId : Nat) (sessionId : Option String) (now : Nat)
    (u : User) : User :=
  if u.id == userId then
    { u with activeSessionId := sessionId, updatedAt := now }
  else u

/-- `storage.updateUserSession(userId, sessionId)`: sets
`activeSessionId` (and `updatedAt`) on the matching user row. -/
def updateUserSession (db : DB) (userId : Nat) (sessionId : Option String)
    (now : Nat) : DB :=
  { db with users := db.users.map (sessionRow userId sessionId now) }

/-- `storage.logActivity(userId, action, description)`: appends an
`activity_logs` row. -/
def logActivity (db : DB) (userId : Nat) (action : String)
    (description : Option String) (now : Nat) : DB :=
  { db with
    activityLogs := db.activityLogs ++
      [{ id := db.nextActivityLogId, userId := userId, action := action,
         description := description, createdAt := now }],
    nextActivityLogId := db.nextActivityLogId + 1 }

/-- `storage.logSearch(userId, searchTerm, resultsCount)`: appends a
`search_logs` row. -/
def logSearch (db : DB) (userId : Nat) (searchTerm : String)
    (resultsCount : Nat) (now : Nat) : DB :=
  { db with
    searchLogs := db.searchLogs ++
      [{ id := db.nextSearchLogId, userId := userId,
         searchTerm := searchTerm, resultsCount := resultsCount,
         createdAt := now }],
    nextSearchLogId := db.nextSearchLogId + 1 }

/-- The per-row update of `storage.suspendUser`. -/
def suspendRow (id suspendedUntil : Nat) (reason : String) (now : Nat)
    (u : User) : User :=
  if u.id == id then
    { u with status := "suspended",
             suspendedUntil := some suspendedUntil,
             suspendedReason := some reason,
             updatedAt := now }
  else u

/-- `storage.suspendUser(id, suspendedUntil, reason)`: sets
`status`, `suspendedUntil`, `suspendedReason` and `updatedAt` on the
matching user row; nothing else is touched. -/
def suspendUser (db : DB) (id : Nat) (suspendedUntil : Nat)
    (reason : String) (now : Nat) : DB :=
  { db with users := db.users.map (suspendRow id suspendedUntil reason now) }

/-- The per-row update of `storage.reactivateUser`. -/
def reactivateRow (id : Nat) (now : Nat) (u : User) : User :=
  if u.id == id then
    { u with status := "active",
             suspendedUntil := none,
             suspendedReason := none,
             updatedAt := now }
  else u

/-- `storage.reactivateUser(id)`: resets `status` to active and clears
both suspension columns. -/
def reactivateUser (db : DB) (id : Nat) (now : Nat) : DB :=
  { db with users := db.users.map (reactivateRow id now) }

/-- `storage.deleteUser(id)`: deletes the user's activity-log and
search-log rows first, then the user row. -/
def deleteUser (db : DB) (id : Nat) : DB :=
  { db with
    activityLogs := db.activityLogs.filter (fun l => !(l.userId == id)),
    searchLogs := db.searchLogs.filter (fun l => !(l.userId == id)),
    users := db.users.filter (fun u => !(u.id == id)) }

/-! ## Credential service

`bcrypt.compare` is an external library call; it is modelled by
treating the stored hash as an injective encoding of the password,
i.e. comparison is string equality of the secret. -/

/-- `comparePassword(password, hash)` (bcrypt comparison, modelled as
equality of the underlying secret). -/
def comparePassword (password hash : String) : Bool :=
  password == hash

/-! ## Session resolution and `requireAuth` (auth module) -/

/-- The `userId` stored on the request's session, if the session
exists and a login has stored one (`req.session.userId`). -/
def sessionUserId (db : DB) (sid : String) : Option Nat :=
  match db.sessions.find? (fun s => s.sid == sid) with
  | some s => s.userId
  | none => none

/-- Outcome of the `requireAuth` middleware. -/
inductive AuthResult where
  | unauthenticated
  | userMissing
  | ok (u : User)
  deriving DecidableEq, Repr

/-- Whether `requireAuth` let the request through. -/
def AuthResult.isOk : AuthResult → Bool
  | .ok _ => true
  | _ => false

/-- `requireAuth`: 401 when the session carries no `userId` (JS
truthiness: the id 0 would also fail the `if (!session.userId)`
guard), 401 when the user row no longer exists, otherwise the request
proceeds with `req.user` set.  No check of `status` or suspension is
performed. -/
def requireAuth (db : DB) (sid : String) : AuthResult :=
  match sessionUserId db sid with
  | none => .unauthenticated
  | some uid =>
    if uid == 0 then .unauthenticated
    else
      match getUser db uid with
      | none => .userMissing
      | some u => .ok u

/-! ## Login / logout handlers (`routes.ts`) -/

/-- Writes `session.userId` for the request's session, creating the
session-store entry if it is not yet persisted. -/
def setSessionUser (db : DB) (sid : String) (uid : Nat) : DB :=
  if db.sessions.any (fun s => s.sid == sid) then
    { db with sessions := db.sessions.map (fun s =>
        if s.sid == sid then { s with userId := some uid } else s) }
  else
    { db with sessions := db.sessions ++ [{ sid := sid, userId := some uid }] }

/-- Removes the session-store entry (`session.destroy`). -/
def destroySession (db : DB) (sid : String) : DB :=
  { db with sessions := db.sessions.filter (fun s => !(s.sid == sid)) }

/-- `loginSchema` (`shared/schema.ts`): username at least 3
characters, password at least 6. -/
def loginSchemaOk (username password : String) : Bool :=
  decide (3 ≤ username.length) && decide (6 ≤ password.length)

/-- `POST /api/auth/login`: schema validation (400), user lookup and
password check (401), session-exclusivity check on `activeSessionId`
(409), then session write, `activeSessionId` update and activity log
(200).  Returns the HTTP status and the resulting store. -/
def login (db : DB) (sid : String) (username password : String)
    (now : Nat) : Nat × DB :=
  if !loginSchemaOk username password then (400, db)
  else
    match getUserByUsername db username with
    | none => (401, db)
    | some u =>
      if !comparePassword password u.password then (401, db)
      else if u.activeSessionId.isSome then (409, db)
      else
        let db1 := setSessionUser db sid u.id
        let db2 := updateUserSession db1 u.id (some sid) now
        let db3 := logActivity db2 u.id "login"
          (some ("Usuario " ++ username ++ " inició sesión")) now
        (200, db3)

/-- `POST /api/auth/logout`: when the session carries a (truthy)
`userId`, clears that user's `activeSessionId` and logs the logout;
in every case destroys the session entry and answers 200. -/
def logout (db : DB) (sid : String) (now : Nat) : Nat × DB :=
  let db1 :=
    match sessionUserId db sid with
    | some uid =>
      if uid == 0 then db
      else
        logActivity (updateUserSession db uid none now) uid "logout"
          (some "Usuario cerró sesión") now
    | none => db
  (200, destroySession db1 sid)

/-! ## Role middleware and the authorization matrix (`routes.ts`) -/

/-- The four role-gated capabilities the routes expose. -/
inductive Capability where
  | dashboard
  | registration
  | search
  | userManagement
  deriving DecidableEq, Repr

/-- `requireAdmin` middleware: passes iff a user is present with role
admin. -/
def requireAdminPasses (user : Option User) : Bool :=
  match user with
  | none => false
  | some u => u.role == "admin"

/-- `requireSupervisorOrAdmin` middleware. -/
def requireSupervisorOrAdminPasses (user : Option User) : Bool :=
  match user with
  | none => false
  | some u => u.role == "admin" || u.role == "supervisor"

/-- `requireRegistrationAccess` middleware
(`allowedRoles = ['admin', 'officer', 'supervisor']`). -/
def requireRegistrationAccessPasses (user : Option User) : Bool :=
  match user with
  | none => false
  | some u => ["admin", "officer", "supervisor"].contains u.role

/-- `requireSearchAccess` middleware
(`allowedRoles = ['admin', 'officer', 'supervisor', 'agent']`). -/
def requireSearchAccessPasses (user : Option User) : Bool :=
  match user with
  | none => false
  | some u => ["admin", "officer", "supervisor", "agent"].contains u.role

/-- The middleware each capability's routes install. -/
def guardFor : Capability → Option User → Bool
  | .dashboard => requireSupervisorOrAdminPasses
  | .registration => requireRegistrationAccessPasses
  | .search => requireSearchAccessPasses
  | .userManagement => requireAdminPasses

/-- Status of a role-gated endpoint: `requireAuth` first (401), then
the capability's middleware (403), then the handler (200). -/
def endpointStatus (db : DB) (sid : String) (cap : Capability) : Nat :=
  match requireAuth db sid with
  | .ok u => if guardFor cap (some u) then 200 else 403
  | _ => 401

/-- Following the spec's words (§4.2 table): which roles hold which
capability.  Used to compare the route middleware against the spec. -/
def specAllowed (role : String) : Capability → Bool
  | .dashboard => role == "admin" || role == "supervisor"
  | .registration => role == "admin" || role == "supervisor" || role == "officer"
  | .search =>
    role == "admin" || role == "supervisor" || role == "officer" || role == "agent"
  | .userManagement => role == "admin"

/-! ## String primitives

`toLowerCase` / `toUpperCase` / `startsWith` / `trim` are modelled
structurally over the character list of the string (ASCII case
folding, as in Lean's own `Char.toLower`), so that every definition
evaluates inside the kernel. -/

/-- ASCII lower-casing of one character. -/
def lowerChar (c : Char) : Char :=
  if 65 ≤ c.toNat && c.toNat ≤ 90 then Char.ofNat (c.toNat + 32) else c

/-- ASCII upper-casing of one character. -/
def upperChar (c : Char) : Char :=
  if 97 ≤ c.toNat && c.toNat ≤ 122 then Char.ofNat (c.toNat - 32) else c

/-- `s.toLowerCase()`. -/
def strLower (s : String) : String :=
  String.mk (s.data.map lowerChar)

/-- `s.toUpperCase()`. -/
def strUpper (s : String) : String :=
  String.mk (s.data.map upperChar)

/-- `s.startsWith(p)`. -/
def strStartsWith (s p : String) : Bool :=
  p.data.isPrefixOf s.data

/-- `s.trim()`: strips leading and trailing whitespace. -/
def jsTrim (s : String) : String :=
  String.mk (((s.data.dropWhile Char.isWhitespace).reverse.dropWhile
    Char.isWhitespace).reverse)

/-! ## Detainee search composition (`storage.searchDetainees`) -/

/-- The optional criteria object `searchDetainees` reads. -/
structure SearchCriteria where
  cedula : Option String := none
  fullName : Option String := none
  state : Option String := none
  municipality : Option String := none
  parish : Option String := none
  deriving DecidableEq, Repr

/-- JS truthiness of an optional string field (`if (criteria.x)`):
present and not the empty string. -/
def truthy : Option String → Bool
  | some s => !(s == "")
  | none => false

/-- SQL LIKE pattern matching over explicit character lists: `%`
matches any sequence, `_` any single character, a backslash escapes
the following pattern character, anything else is literal. -/
def likeMatches : List Char → List Char → Bool
  | [], s => s.isEmpty
  | '%' :: ps, s => s.tails.any (fun t => likeMatches ps t)
  | '_' :: ps, s =>
    match s with
    | [] => false
    | _ :: s1 => likeMatches ps s1
  | '\\' :: ps, s =>
    match ps, s with
    | e :: ps1, c :: s1 => (c == e) && likeMatches ps1 s1
    | _, _ => false
  | p :: ps, s =>
    match s with
    | [] => false
    | c :: s1 => (c == p) && likeMatches ps s1

/-- Postgres `ILIKE`: case-insensitive LIKE (both sides lowered). -/
def ilike (pattern s : String) : Bool :=
  likeMatches (strLower pattern).data (strLower s).data

/-- The `conditions` array `searchDetainees` accumulates: one
predicate per truthy field, in source order — `cedula` by equality,
`fullName` by `ILIKE '%..%'`, the division fields by equality. -/
def searchConds (c : SearchCriteria) : List (Detainee → Bool) :=
  (if truthy c.cedula then
    [fun d => d.cedula == c.cedula.getD ""] else []) ++
  (if truthy c.fullName then
    [fun d => ilike ("%" ++ c.fullName.getD "" ++ "%") d.fullName] else []) ++
  (if truthy c.state then
    [fun d => d.state == c.state.getD ""] else []) ++
  (if truthy c.municipality then
    [fun d => d.municipality == c.municipality.getD ""] else []) ++
  (if truthy c.parish then
    [fun d => d.parish == c.parish.getD ""] else [])

/-- `WHERE and(...conditions)` (vacuously true when none). -/
def matchesCriteria (c : SearchCriteria) (d : Detainee) : Bool :=
  (searchConds c).all (fun p => p d)

/-- The `ORDER BY created_at DESC` key order: `a` may precede `b`
when `b.createdAt ≤ a.createdAt`. -/
def createdAtDescRel (a b : Detainee) : Prop :=
  b.createdAt ≤ a.createdAt

instance : DecidableRel createdAtDescRel :=
  fun a b => Nat.decLe b.createdAt a.createdAt

instance : IsTotal Detainee createdAtDescRel :=
  ⟨fun a b => (Nat.le_total b.createdAt a.createdAt).imp id id⟩

instance : IsTrans Detainee createdAtDescRel :=
  ⟨fun _ _ _ hab hbc => Nat.le_trans hbc hab⟩

/-- `ORDER BY created_at DESC`.  The SQL fixes only the key order;
the model realizes the unconstrained order of equal-key rows as a
stable sort, i.e. table (insertion) order. -/
def orderByCreatedAtDesc (l : List Detainee) : List Detainee :=
  List.insertionSort createdAtDescRel l

/-- `storage.searchDetainees(criteria)`: filter by the accumulated
conditions, order by `created_at` descending. -/
def searchDetainees (db : DB) (c : SearchCriteria) : List Detainee :=
  orderByCreatedAtDesc (db.detainees.filter (matchesCriteria c))

/-! ## Search endpoints (`routes.ts`) -/

/-- `searchDetaineeSchema` (`shared/schema.ts`): all five fields are
optional; the only rejection in the typed model is a present-but-empty
`cedula` (`z.string().min(1).optional()`). -/
def searchSchemaOk (c : SearchCriteria) : Bool :=
  !(c.cedula == some "")

/-- `POST /api/search`: parse the criteria (400 on failure), run the
search, append one search-log and one activity-log row, answer 200
with the results. -/
def postSearch (db : DB) (uid : Nat) (c : SearchCriteria) (now : Nat) :
    Nat × List Detainee × DB :=
  if !(searchSchemaOk c) then (400, [], db)
  else
    let results := searchDetainees db c
    let searchTerm := if truthy c.cedula then c.cedula.getD "" else "simple search"
    let cedulaText := match c.cedula with | some s => s | none => "undefined"
    let db1 := logSearch db uid searchTerm results.length now
    let db2 := logActivity db1 uid "search"
      (some ("Simple search with cedula: " ++ cedulaText)) now
    (200, results, db2)

/-- The advanced handler's non-empty-criteria test: some value of the
request object is a non-empty, non-whitespace-only string.  It
inspects every key of the body, not only the five searchable ones. -/
def hasValidCriteria (body : List (String × String)) : Bool :=
  body.any (fun kv => !(kv.2 == "") && !(jsTrim kv.2 == ""))

/-- Reading the five searchable fields off the raw request object
(`criteria.cedula`, ..): absent keys yield `undefined`. -/
def critOfBody (body : List (String × String)) : SearchCriteria :=
  { cedula := body.lookup "cedula",
    fullName := body.lookup "fullName",
    state := body.lookup "state",
    municipality := body.lookup "municipality",
    parish := body.lookup "parish" }

/-- `POST /api/search/advanced`: reject bodies with no non-empty
value (400) before touching the store, otherwise search on the raw
body, log, and answer 200. -/
def postAdvancedSearch (db : DB) (uid : Nat) (body : List (String × String))
    (now : Nat) : Nat × List Detainee × DB :=
  if !(hasValidCriteria body) then (400, [], db)
  else
    let results := searchDetainees db (critOfBody body)
    let searchTerms := String.intercalate ", "
      ((body.filter (fun kv => !(kv.2 == "") && !(jsTrim kv.2 == ""))).map
        (fun kv => kv.1 ++ ": " ++ kv.2))
    let db1 := logSearch db uid ("Advanced: " ++ searchTerms) results.length now
    let db2 := logActivity db1 uid "advanced_search"
      (some ("Advanced search with criteria: " ++ searchTerms)) now
    (200, results, db2)

/-! ## Detainee registration (`routes.ts`, `insertDetaineeSchema`) -/

/-- The registration form fields (multipart body before validation). -/
structure DetaineeForm where
  fullName : String
  cedula : String
  birthDate : String
  state : String
  municipality : String
  parish : String
  address : String
  registro : Option String := none
  phone : Option String := none
  deriving DecidableEq, Repr

/-- The `insertDetaineeSchema` cedula transform: values not starting
(case-insensitively) with "v-" or "e-" get a "V-" prepended verbatim;
values that do start with a nationality marker are uppercased. -/
def normalizeCedula (val : String) : String :=
  if !(strStartsWith (strLower val) "v-") && !(strStartsWith (strLower val) "e-") then
    "V-" ++ val
  else
    strUpper val

/-- `storage.createDetainee` under the `detainees_cedula_unique`
constraint: the insert is rejected (`none`) when the cedula is
already stored, otherwise the row is appended with a fresh serial id. -/
def createDetainee (db : DB) (form : DetaineeForm)
    (photoUrl idDocumentUrl : Option String) (registeredBy : Nat)
    (now : Nat) : Option (Detainee × DB) :=
  if db.detainees.any (fun d => d.cedula == form.cedula) then none
  else
    let d : Detainee :=
      { id := db.nextDetaineeId, fullName := form.fullName,
        cedula := form.cedula, birthDate := form.birthDate,
        state := form.state, municipality := form.municipality,
        parish := form.parish, address := form.address,
        registro := form.registro, phone := form.phone,
        photoUrl := photoUrl, idDocumentUrl := idDocumentUrl,
        registeredBy := registeredBy, createdAt := now, updatedAt := now }
    some (d, { db with detainees := db.detainees ++ [d],
                       nextDetaineeId := db.nextDetaineeId + 1 })

/-- `POST /api/detainees`: schema validation (400 on empty cedula,
which also normalizes the cedula), then the insert — a constraint
rejection is caught by the generic handler and surfaces as 500 — and
on success an activity-log row and 201. -/
def postDetainee (db : DB) (uid : Nat) (form : DetaineeForm)
    (photoUrl idDocumentUrl : Option String) (now : Nat) : Nat × DB :=
  if form.cedula == "" then (400, db)
  else
    let validated := { form with cedula := normalizeCedula form.cedula }
    match createDetainee db validated photoUrl idDocumentUrl uid now with
    | none => (500, db)
    | some (_, db1) =>
      (201, logActivity db1 uid "registration"
        (some ("Registered detainee: " ++ validated.fullName)) now)

/-! ## Admin user deletion (`routes.ts`) -/

/-- `DELETE /api/admin/users/:id`: self-deletion is rejected with 400
before any store access; otherwise the cascading `storage.deleteUser`
runs and the action is logged against the calling admin. -/
def deleteUserRoute (db : DB) (callerId targetId : Nat) (now : Nat) :
    Nat × DB :=
  if targetId == callerId then (400, db)
  else
    let db1 := deleteUser db targetId
    (200, logActivity db1 callerId "delete_user"
      (some ("Eliminó usuario ID " ++ toString targetId)) now)

/-! ## Fixtures used by the witnesses -/

/-- The bootstrap admin account, logged in through session "s1". -/
def adminUser : User :=
  { id := 1, username := "admin", password := "123456", role := "admin",
    activeSessionId := some "s1" }

/-- An agent account, logged in through session "s2". -/
def agentUser : User :=
  { id := 2, username := "agente", password := "abcdef", role := "agent",
    activeSessionId := some "s2" }

/-- A store with both accounts logged in. -/
def dbAuth : DB :=
  { users := [adminUser, agentUser],
    sessions := [{ sid := "s1", userId := some 1 },
                 { sid := "s2", userId := some 2 }],
    activityLogs := [{ id := 1, userId := 2, action := "login", createdAt := 1 }],
    searchLogs := [{ id := 1, userId := 2, searchTerm := "V-1", resultsCount := 0,
                     createdAt := 1 }],
    nextActivityLogId := 2, nextSearchLogId := 2 }

/-- The four roles of the system. -/
def roles4 : List String := ["admin", "supervisor", "officer", "agent"]

/-! ## Theorems -/

/-- The route middleware computes exactly the spec's §4.2 table, for
every role string. -/
theorem guardFor_eq_specAllowed (cap : Capability) (u : User) :
    guardFor cap (some u) = specAllowed u.role cap := by
  cases cap <;>
    simp only [guardFor, requireAdminPasses, requireSupervisorOrAdminPasses,
      requireRegistrationAccessPasses, requireSearchAccessPasses, specAllowed,
      List.contains, List.elem] <;>
    cases hA : (u.role == "admin") <;>
    cases hS : (u.role == "supervisor") <;>
    cases hO : (u.role == "officer") <;>
    cases hG : (u.role == "agent") <;>
    simp [hA, hS, hO, hG]

/-- C1: when the supplied credentials pass the login schema and are
valid for a user whose `activeSessionId` is non-null, login answers
409 (SessionConflict) and leaves the whole store unchanged: the
existing session survives, `activeSessionId` keeps its value, and no
session entry or activity-log row is created. -/
theorem login_conflict_rejected_without_mutation
    (db : DB) (sid username password : String) (now : Nat) (u : User)
    (hschema : loginSchemaOk username password = true)
    (hfind : getUserByUsername db username = some u)
    (hpw : comparePassword password u.password = true)
    (hactive : u.activeSessionId.isSome = true) :
    login db sid username password now = (409, db) := by
  simp [login, hschema, hfind, hpw, hactive]

/-- Witness for C1: the logged-in admin's valid credentials are
rejected with 409 from a second device, with the store untouched. -/
theorem login_conflict_rejected_without_mutation_witness :
    login dbAuth "s9" "admin" "123456" 7 = (409, dbAuth) :=
  login_conflict_rejected_without_mutation dbAuth "s9" "admin" "123456" 7
    adminUser (by decide) (by decide) (by decide) (by decide)

/-- C2: an authenticated request by a user of one of the four roles
gets 200 or 403 from each of the four capabilities exactly as the
spec's §4.2 table says; an unauthenticated request gets 401; and 403
is produced only when a valid session resolved to a user. -/
theorem role_capability_matrix (db : DB) (sid : String) (cap : Capability) :
    (∀ u : User, requireAuth db sid = .ok u → u.role ∈ roles4 →
       endpointStatus db sid cap = if specAllowed u.role cap then 200 else 403) ∧
    ((requireAuth db sid).isOk = false → endpointStatus db sid cap = 401) ∧
    (endpointStatus db sid cap = 403 → (requireAuth db sid).isOk = true) := by
  refine ⟨?_, ?_, ?_⟩
  · intro u hu _hrole
    simp [endpointStatus, hu, guardFor_eq_specAllowed]
  · intro h
    cases hr : requireAuth db sid with
    | ok u => rw [hr] at h; simp [AuthResult.isOk] at h
    | unauthenticated => simp [endpointStatus, hr]
    | userMissing => simp [endpointStatus, hr]
  · intro h
    cases hr : requireAuth db sid with
    | ok u => simp [AuthResult.isOk]
    | unauthenticated => simp [endpointStatus, hr] at h
    | userMissing => simp [endpointStatus, hr] at h

/-- Witness for C2: the agent gets 403 from the dashboard, the admin
200, and a request with an unknown session 401. -/
theorem role_capability_matrix_witness :
    endpointStatus dbAuth "s2" Capability.dashboard = 403 ∧
    endpointStatus dbAuth "s1" Capability.dashboard = 200 ∧
    endpointStatus dbAuth "s9" Capability.dashboard = 401 := by
  refine ⟨?_, ?_, ?_⟩
  · have h := (role_capability_matrix dbAuth "s2" Capability.dashboard).1
      agentUser (by decide) (by decide)
    simpa [specAllowed, agentUser] using h
  · have h := (role_capability_matrix dbAuth "s1" Capability.dashboard).1
      adminUser (by decide) (by decide)
    simpa [specAllowed, adminUser] using h
  · exact (role_capability_matrix dbAuth "s9" Capability.dashboard).2.1 (by decide)

/-- C7: deleting one's own account is rejected with 400 and the store
is untouched; deleting another account answers 200 and afterwards no
activity-log row, no search-log row and no user row carries the
target's id. -/
theorem deleteUser_self_guard_and_cascade
    (db : DB) (callerId targetId : Nat) (now : Nat) :
    (targetId = callerId → deleteUserRoute db callerId targetId now = (400, db)) ∧
    (targetId ≠ callerId →
      (deleteUserRoute db callerId targetId now).1 = 200 ∧
      (∀ l ∈ (deleteUserRoute db callerId targetId now).2.activityLogs,
        l.userId ≠ targetId) ∧
      (∀ l ∈ (deleteUserRoute db callerId targetId now).2.searchLogs,
        l.userId ≠ targetId) ∧
      (∀ u ∈ (deleteUserRoute db callerId targetId now).2.users,
        u.id ≠ targetId)) := by
  constructor
  · intro h
    simp [deleteUserRoute, h]
  · intro h
    have hbeq : (targetId == callerId) = false := by
      simpa using h
    refine ⟨by simp [deleteUserRoute, hbeq], ?_, ?_, ?_⟩
    · intro l hl
      simp only [deleteUserRoute, hbeq, Bool.false_eq_true, if_false,
        logActivity, deleteUser, List.mem_append, List.mem_filter,
        List.mem_singleton] at hl
      rcases hl with ⟨_, hneq⟩ | rfl
      · simpa using hneq
      · simpa [eq_comm] using h
    · intro l hl
      simp only [deleteUserRoute, hbeq, Bool.false_eq_true, if_false,
        logActivity, deleteUser, List.mem_filter] at hl
      simpa using hl.2
    · intro u hu
      simp only [deleteUserRoute, hbeq, Bool.false_eq_true, if_false,
        logActivity, deleteUser, List.mem_filter] at hu
      simpa using hu.2

/-- Witness for C7: the admin deletes the agent; afterwards none of
the agent's rows remain, and a self-delete leaves the store as is. -/
theorem deleteUser_self_guard_and_cascade_witness :
    deleteUserRoute dbAuth 1 1 9 = (400, dbAuth) ∧
    (deleteUserRoute dbAuth 1 2 9).1 = 200 ∧
    (∀ l ∈ (deleteUserRoute dbAuth 1 2 9).2.activityLogs, l.userId ≠ 2) ∧
    (∀ l ∈ (deleteUserRoute dbAuth 1 2 9).2.searchLogs, l.userId ≠ 2) ∧
    (∀ u ∈ (deleteUserRoute dbAuth 1 2 9).2.users, u.id ≠ 2) := by
  have h2 := (deleteUser_self_guard_and_cascade dbAuth 1 2 9).2 (by decide)
  exact ⟨(deleteUser_self_guard_and_cascade dbAuth 1 1 9).1 rfl,
    h2.1, h2.2.1, h2.2.2.1, h2.2.2.2⟩

/-- `find?` commutes with mapping a function that preserves the
predicate. -/
theorem find?_map_eq {α : Type} (f : α → α) (p : α → Bool) (l : List α)
    (h : ∀ a, p (f a) = p a) :
    (l.map f).find? p = (l.find? p).map f := by
  induction l with
  | nil => rfl
  | cons a l ih =>
    cases hp : p a with
    | true =>
      simp [List.find?_cons, h a, hp]
    | false =>
      simp [List.find?_cons, h a, hp, ih]

/-- C6: logout clears the session owner's `activeSessionId`, destroys
the session entry, is not an error when the session carries no user,
and a subsequent login with the same valid credentials succeeds. -/
theorem logout_clears_lock_and_relogin (db : DB) (sid : String) (now : Nat) :
    (∀ uid, sessionUserId db sid = some uid → uid ≠ 0 →
       (logout db sid now).1 = 200 ∧
       (∀ u ∈ (logout db sid now).2.users, u.id = uid →
          u.activeSessionId = none) ∧
       (∀ s ∈ (logout db sid now).2.sessions, s.sid ≠ sid)) ∧
    (sessionUserId db sid = none →
       logout db sid now =
         (200, { db with
                 sessions := db.sessions.filter (fun s => !(s.sid == sid)) })) ∧
    (∀ sid2 now2 username password u,
       sessionUserId db sid = some u.id → u.id ≠ 0 →
       getUserByUsername db username = some u →
       loginSchemaOk username password = true →
       comparePassword password u.password = true →
       (login (logout db sid now).2 sid2 username password now2).1 = 200) := by
  refine ⟨?_, ?_, ?_⟩
  · intro uid hs h0
    have hb0 : (uid == 0) = false := by simpa using h0
    refine ⟨rfl, ?_, ?_⟩
    · intro u hu hid
      simp only [logout, hs, hb0, Bool.false_eq_true, if_false,
        destroySession, logActivity, updateUserSession, List.mem_map] at hu
      obtain ⟨a, _, rfl⟩ := hu
      cases ha : (a.id == uid) with
      | true => simp [sessionRow, ha]
      | false =>
        rw [sessionRow, if_neg (by simp [ha])] at hid
        exact absurd (by simpa using hid) (by simpa using ha)
    · intro s hsmem
      simp only [logout, destroySession, List.mem_filter] at hsmem
      simpa using hsmem.2
  · intro h
    simp [logout, h, destroySession]
  · intro sid2 now2 username password u hs h0 hfind hschema hpw
    have hb0 : (u.id == 0) = false := by simpa using h0
    have husers : (logout db sid now).2.users =
        db.users.map (sessionRow u.id none now) := by
      simp [logout, hs, hb0, destroySession, logActivity, updateUserSession]
    have hpres : ∀ a : User,
        ((sessionRow u.id none now a).username == username)
          = (a.username == username) := by
      intro a
      unfold sessionRow
      split <;> rfl
    have hfu : sessionRow u.id none now u =
        { u with activeSessionId := none, updatedAt := now } := by
      simp [sessionRow]
    have hfind2 : getUserByUsername (logout db sid now).2 username =
        some { u with activeSessionId := none, updatedAt := now } := by
      unfold getUserByUsername
      rw [husers, find?_map_eq _ _ _ hpres]
      unfold getUserByUsername at hfind
      rw [hfind, Option.map_some', hfu]
    simp [login, hschema, hfind2, hpw]

/-- Witness for C6: logging the admin out clears the lock, removes
the session, tolerates a second logout, and the same credentials log
in again. -/
theorem logout_clears_lock_and_relogin_witness :
    (logout dbAuth "s1" 8).1 = 200 ∧
    (∀ u ∈ (logout dbAuth "s1" 8).2.users, u.id = 1 →
       u.activeSessionId = none) ∧
    (∀ s ∈ (logout dbAuth "s1" 8).2.sessions, s.sid ≠ "s1") ∧
    (login (logout dbAuth "s1" 8).2 "s7" "admin" "123456" 9).1 = 200 := by
  have h1 := (logout_clears_lock_and_relogin dbAuth "s1" 8).1 1 (by decide) (by decide)
  have h3 := (logout_clears_lock_and_relogin dbAuth "s1" 8).2.2 "s7" 9
    "admin" "123456" adminUser (by decide) (by decide) (by decide) (by decide)
    (by decide)
  exact ⟨h1.1, h1.2.1, h1.2.2, h3⟩

/-- C8: `suspendUser` writes only the suspension fields (plus
`updatedAt`) of the target row and nothing else in the store; it does
not block authentication — a request whose session resolved to a user
before still resolves afterwards; `reactivateUser` clears both
suspension fields and resets the status. -/
theorem suspend_frame_and_does_not_block_auth
    (db : DB) (id suspendedUntil : Nat) (reason : String) (now now2 : Nat) :
    ((suspendUser db id suspendedUntil reason now).detainees = db.detainees ∧
     (suspendUser db id suspendedUntil reason now).sessions = db.sessions ∧
     (suspendUser db id suspendedUntil reason now).searchLogs = db.searchLogs ∧
     (suspendUser db id suspendedUntil reason now).activityLogs = db.activityLogs) ∧
    (∀ u ∈ db.users, u.id ≠ id →
       u ∈ (suspendUser db id suspendedUntil reason now).users) ∧
    (∀ u ∈ db.users, u.id = id →
       { u with status := "suspended", suspendedUntil := some suspendedUntil,
                suspendedReason := some reason, updatedAt := now }
         ∈ (suspendUser db id suspendedUntil reason now).users) ∧
    (∀ sid u, requireAuth db sid = .ok u →
       (requireAuth (suspendUser db id suspendedUntil reason now) sid).isOk = true) ∧
    (∀ u ∈ db.users, u.id = id →
       { u with status := "active", suspendedUntil := none,
                suspendedReason := none, updatedAt := now2 }
         ∈ (reactivateUser db id now2).users) := by
  refine ⟨⟨rfl, rfl, rfl, rfl⟩, ?_, ?_, ?_, ?_⟩
  · intro u hu hne
    have hb : (u.id == id) = false := by simpa using hne
    have hmem := List.mem_map_of_mem (suspendRow id suspendedUntil reason now) hu
    rw [suspendRow, if_neg (by simp [hb])] at hmem
    exact hmem
  · intro u hu hid
    have hb : (u.id == id) = true := by simpa using hid
    have hmem := List.mem_map_of_mem (suspendRow id suspendedUntil reason now) hu
    rw [suspendRow, if_pos (by simp [hb])] at hmem
    exact hmem
  · intro sid u h
    cases hs : sessionUserId db sid with
    | none => simp only [requireAuth, hs] at h; cases h
    | some uid =>
      cases h0 : (uid == 0) with
      | true => simp only [requireAuth, hs, h0, if_true] at h; cases h
      | false =>
        cases hg : getUser db uid with
        | none =>
          simp only [requireAuth, hs, h0, Bool.false_eq_true, if_false, hg] at h
          cases h
        | some v =>
          simp only [requireAuth, hs, h0, Bool.false_eq_true, if_false, hg] at h
          cases h
          have hpres : ∀ a : User,
              ((suspendRow id suspendedUntil reason now a).id == uid)
                = (a.id == uid) := by
            intro a
            unfold suspendRow
            split <;> rfl
          have hg2 : getUser (suspendUser db id suspendedUntil reason now) uid =
              some (suspendRow id suspendedUntil reason now u) := by
            unfold getUser
            rw [show (suspendUser db id suspendedUntil reason now).users
                  = db.users.map (suspendRow id suspendedUntil reason now)
                from rfl]
            rw [find?_map_eq _ _ _ hpres]
            unfold getUser at hg
            rw [hg, Option.map_some']
          have hsess : sessionUserId
              (suspendUser db id suspendedUntil reason now) sid
                = sessionUserId db sid := rfl
          simp [requireAuth, hsess, hs, h0, hg2, AuthResult.isOk]
  · intro u hu hid
    have hb : (u.id == id) = true := by simpa using hid
    have hmem := List.mem_map_of_mem (reactivateRow id now2) hu
    rw [reactivateRow, if_pos (by simp [hb])] at hmem
    exact hmem

/-- Witness for C8: suspending the agent keeps every other field and
their session keeps authenticating; reactivation clears the fields. -/
theorem suspend_frame_and_does_not_block_auth_witness :
    ({ agentUser with
        status := "suspended",
        suspendedUntil := some 30,
        suspendedReason := some "pending review",
        updatedAt := 9 }
      ∈ (suspendUser dbAuth 2 30 "pending review" 9).users) ∧
    (requireAuth (suspendUser dbAuth 2 30 "pending review" 9) "s2").isOk = true ∧
    ({ agentUser with
        status := "active",
        suspendedUntil := none,
        suspendedReason := none,
        updatedAt := 11 }
      ∈ (reactivateUser dbAuth 2 11).users) := by
  have h := suspend_frame_and_does_not_block_auth dbAuth 2 30 "pending review" 9 11
  exact ⟨h.2.2.1 agentUser (by decide) rfl,
    h.2.2.2.1 "s2" agentUser (by decide),
    h.2.2.2.2 agentUser (by decide) rfl⟩

/-! ## Search lemmas -/

/-- Membership in a search result is membership in the filtered
table: the ordering step is a permutation. -/
theorem mem_searchDetainees (db : DB) (c : SearchCriteria) (d : Detainee) :
    d ∈ searchDetainees db c ↔ d ∈ db.detainees ∧ matchesCriteria c d = true := by
  unfold searchDetainees orderByCreatedAtDesc
  rw [(List.perm_insertionSort createdAtDescRel _).mem_iff, List.mem_filter]

/-- The accumulated conditions hold exactly when each truthy field's
predicate holds. -/
theorem matchesCriteria_iff (c : SearchCriteria) (d : Detainee) :
    matchesCriteria c d = true ↔
      ((truthy c.cedula = true → d.cedula = c.cedula.getD "") ∧
       (truthy c.fullName = true →
          ilike ("%" ++ c.fullName.getD "" ++ "%") d.fullName = true) ∧
       (truthy c.state = true → d.state = c.state.getD "") ∧
       (truthy c.municipality = true → d.municipality = c.municipality.getD "") ∧
       (truthy c.parish = true → d.parish = c.parish.getD "")) := by
  cases h1 : truthy c.cedula <;> cases h2 : truthy c.fullName <;>
    cases h3 : truthy c.state <;> cases h4 : truthy c.municipality <;>
    cases h5 : truthy c.parish <;>
    simp [matchesCriteria, searchConds, h1, h2, h3, h4, h5, and_assoc]

/-- Following the claim's words: case-insensitive substring test. -/
def containsCI (hay needle : String) : Bool :=
  (strLower hay).data.tails.any (fun t => (strLower needle).data.isPrefixOf t)

/-- A detainee row whose fullName is the single letter "x". -/
def dWild : Detainee :=
  { id := 1, fullName := "x", cedula := "V-9", birthDate := "1990-01-01",
    state := "Zulia", municipality := "Maracaibo", parish := "Bolivar",
    address := "a", registeredBy := 1, createdAt := 5 }

/-- A store holding only that row. -/
def dbWild : DB := { detainees := [dWild] }

/-- Counterexample to C3 as stated: a fullName query that is the SQL
wildcard "_" returns the row "x", although "x" does not contain "_"
as a (case-insensitive) substring — the query string is interpreted
as a LIKE pattern, not as a literal substring. -/
theorem searchDetainees_substring_cex :
    searchDetainees dbWild { fullName := some "_" } = [dWild] ∧
    containsCI dWild.fullName "_" = false := by
  constructor <;> decide

/-- C3 (amended): a search returns exactly the rows satisfying the
conjunction of one predicate per present non-empty field — cedula,
state, municipality, parish by string equality, fullName by the
case-insensitive SQL pattern `%query%` (substring matching whenever
the query has no `%`, `_` or backslash characters); absent or empty
fields contribute no predicate. -/
theorem searchDetainees_characterization
    (db : DB) (c : SearchCriteria) (d : Detainee) :
    d ∈ searchDetainees db c ↔
      (d ∈ db.detainees ∧
       (truthy c.cedula = true → d.cedula = c.cedula.getD "") ∧
       (truthy c.fullName = true →
          ilike ("%" ++ c.fullName.getD "" ++ "%") d.fullName = true) ∧
       (truthy c.state = true → d.state = c.state.getD "") ∧
       (truthy c.municipality = true → d.municipality = c.municipality.getD "") ∧
       (truthy c.parish = true → d.parish = c.parish.getD "")) := by
  rw [mem_searchDetainees, matchesCriteria_iff]

/-- Witness for C3: the record "Juan Perez" is found by the
lower-case substring query "juan". -/
theorem searchDetainees_characterization_witness :
    ({ dWild with fullName := "Juan Perez" } : Detainee)
      ∈ searchDetainees { detainees := [{ dWild with fullName := "Juan Perez" }] }
          { fullName := some "juan" } := by
  rw [searchDetainees_characterization]
  refine ⟨by decide, by decide, by decide, by decide, by decide, by decide⟩

/-- Following the claim's words: descending creation time with a
descending-id tiebreak on equal timestamps. -/
def specOrderedDesc : List Detainee → Bool
  | [] => true
  | [_] => true
  | a :: b :: rest =>
    (b.createdAt < a.createdAt || (b.createdAt == a.createdAt && b.id < a.id)) &&
    specOrderedDesc (b :: rest)

/-- Two rows registered in the same instant, ids 1 and 2. -/
def dTie1 : Detainee := { dWild with id := 1, cedula := "V-1", createdAt := 5 }

/-- Second of the two tied rows. -/
def dTie2 : Detainee := { dWild with id := 2, cedula := "V-2", createdAt := 5 }

/-- A store holding the two tied rows in insertion order. -/
def dbTie : DB := { detainees := [dTie1, dTie2] }

/-- Counterexample to C9 as stated: with two rows of equal
`createdAt`, the query (`ORDER BY created_at DESC` with no further
key) yields them in table order — ascending id — not descending id. -/
theorem searchDetainees_order_cex :
    searchDetainees dbTie {} = [dTie1, dTie2] ∧
    specOrderedDesc (searchDetainees dbTie {}) = false := by
  constructor <;> decide

/-- C9 (amended): every search result is sorted by creation time
descending, and is a permutation of the matching rows; the relative
order of rows with equal `createdAt` is not constrained by the query
(the model realizes it as insertion order). -/
theorem searchDetainees_sorted_desc (db : DB) (c : SearchCriteria) :
    List.Sorted createdAtDescRel (searchDetainees db c) ∧
    List.Perm (searchDetainees db c)
      (db.detainees.filter (matchesCriteria c)) :=
  ⟨List.sorted_insertionSort createdAtDescRel _,
   List.perm_insertionSort createdAtDescRel _⟩

/-- C10: an advanced-search body whose five searchable fields are all
absent but which carries a non-empty value under another key passes
the non-empty-criteria validation — it inspects all values — and the
search then runs with zero predicates, returning every row. -/
theorem advanced_search_checks_all_keys (db : DB) (uid : Nat) (now : Nat) :
    critOfBody [("foo", "x")] = ({} : SearchCriteria) ∧
    (postAdvancedSearch db uid [("foo", "x")] now).1 = 200 ∧
    (∀ d : Detainee,
       d ∈ (postAdvancedSearch db uid [("foo", "x")] now).2.1 ↔
         d ∈ db.detainees) := by
  have hv : hasValidCriteria [("foo", "x")] = true := by decide
  refine ⟨by decide, by simp [postAdvancedSearch, hv], ?_⟩
  intro d
  have hres : (postAdvancedSearch db uid [("foo", "x")] now).2.1 =
      searchDetainees db (critOfBody [("foo", "x")]) := by
    simp [postAdvancedSearch, hv]
  rw [hres, show critOfBody [("foo", "x")] = ({} : SearchCriteria) from by decide,
    mem_searchDetainees]
  simp [matchesCriteria, searchConds, truthy]

/-! ## Registration and entry-point validation -/

/-- A store already holding the cedula "V-12345678". -/
def dbDup : DB := { detainees := [{ dWild with cedula := "V-12345678" }] }

/-- A registration form whose cedula normalizes to "V-12345678". -/
def formDup : DetaineeForm :=
  { fullName := "Juan", cedula := "v-12345678", birthDate := "1990-01-01",
    state := "Zulia", municipality := "Maracaibo", parish := "Bolivar",
    address := "a" }

/-- Counterexample to C4 as stated: re-registering a cedula that
normalizes to a stored one is rejected, but the constraint violation
is caught by the generic handler and surfaces as 500 (ServerError),
not as 409 (Conflict). -/
theorem postDetainee_duplicate_cex :
    postDetainee dbDup 1 formDup none none 9 = (500, dbDup) ∧
    (500 : Nat) ≠ 409 := by
  constructor <;> decide

/-- C4 (amended): registration stores the normalized cedula (e.g.
"12345678" is stored as "V-12345678"), and a second registration
whose cedula normalizes to an already-stored value is rejected by the
unique constraint, leaving the detainee store unchanged — but it
fails with status 500, not 409 Conflict. -/
theorem postDetainee_normalize_and_unique
    (db : DB) (uid : Nat) (form : DetaineeForm) (pu idu : Option String)
    (now : Nat) (hne : form.cedula ≠ "") :
    ((normalizeCedula form.cedula) ∈ db.detainees.map Detainee.cedula →
       postDetainee db uid form pu idu now = (500, db)) ∧
    ((normalizeCedula form.cedula) ∉ db.detainees.map Detainee.cedula →
       (postDetainee db uid form pu idu now).1 = 201 ∧
       ∃ d : Detainee,
         (postDetainee db uid form pu idu now).2.detainees =
           db.detainees ++ [d] ∧
         d.cedula = normalizeCedula form.cedula) := by
  have hb : (form.cedula == "") = false := by simpa using hne
  constructor
  · intro h
    have hany : (db.detainees.any (fun d =>
        d.cedula == normalizeCedula form.cedula)) = true := by
      rw [List.any_eq_true]
      rcases List.mem_map.mp h with ⟨x, hx, hcx⟩
      exact ⟨x, hx, by simp [hcx]⟩
    simp [postDetainee, hb, createDetainee, hany]
  · intro h
    have hany : (db.detainees.any (fun d =>
        d.cedula == normalizeCedula form.cedula)) = false := by
      rw [List.any_eq_false]
      intro x hx
      simp only [beq_iff_eq]
      intro hcx
      exact h (List.mem_map.mpr ⟨x, hx, hcx⟩)
    refine ⟨by simp [postDetainee, hb, createDetainee, hany, logActivity], ?_⟩
    refine ⟨{ id := db.nextDetaineeId, fullName := form.fullName,
              cedula := normalizeCedula form.cedula,
              birthDate := form.birthDate, state := form.state,
              municipality := form.municipality, parish := form.parish,
              address := form.address, registro := form.registro,
              phone := form.phone, photoUrl := pu, idDocumentUrl := idu,
              registeredBy := uid, createdAt := now, updatedAt := now },
      ?_, rfl⟩
    simp [postDetainee, hb, createDetainee, hany, logActivity]

/-- Witness for C4 (amended): cedula "12345678" is stored as
"V-12345678" in an empty store; re-registering "v-12345678" against
`dbDup` answers 500 with the store unchanged. -/
theorem postDetainee_normalize_and_unique_witness :
    postDetainee dbDup 1 formDup none none 9 = (500, dbDup) ∧
    (postDetainee ({} : DB) 1 { formDup with cedula := "12345678" }
        none none 9).1 = 201 ∧
    (∃ d : Detainee,
       (postDetainee ({} : DB) 1 { formDup with cedula := "12345678" }
           none none 9).2.detainees = [d] ∧
       d.cedula = "V-12345678") := by
  have h1 := (postDetainee_normalize_and_unique dbDup 1 formDup none none 9
    (by decide)).1 (by decide)
  have h2 := (postDetainee_normalize_and_unique ({} : DB) 1
    { formDup with cedula := "12345678" } none none 9 (by decide)).2 (by decide)
  obtain ⟨d, hd, hc⟩ := h2.2
  exact ⟨h1, h2.1, ⟨d, by simpa using hd, by rw [hc]; decide⟩⟩

/-- Counterexample to C5 as stated: a simple-search request without a
cedula is not rejected — it passes validation, the search runs with
no predicates, and every stored row is returned with status 200. -/
theorem postSearch_no_cedula_cex :
    (postSearch dbWild 1 {} 3).1 = 200 ∧
    (postSearch dbWild 1 {} 3).2.1 = [dWild] := by
  constructor <;> decide

/-- C5 (amended): the advanced entry point rejects a body none of
whose values is a non-empty, non-whitespace string with 400 before
any store access or audit write; the simple entry point does not
require a cedula — an absent cedula passes validation and the search
executes; only a present-but-empty cedula string is rejected. -/
theorem search_entry_validation (db : DB) (uid : Nat)
    (body : List (String × String)) (c : SearchCriteria) (now : Nat) :
    (hasValidCriteria body = false →
       postAdvancedSearch db uid body now = (400, [], db)) ∧
    (c.cedula = none → (postSearch db uid c now).1 = 200) ∧
    (c.cedula = some "" → postSearch db uid c now = (400, [], db)) := by
  refine ⟨?_, ?_, ?_⟩
  · intro h
    simp [postAdvancedSearch, h]
  · intro h
    simp [postSearch, searchSchemaOk, h]
  · intro h
    simp [postSearch, searchSchemaOk, h]

/-- Witness for C5 (amended): a body of empty and whitespace-only
values is rejected with the store untouched; a request without a
cedula answers 200; an empty cedula string is rejected. -/
theorem search_entry_validation_witness :
    postAdvancedSearch dbWild 1 [("cedula", ""), ("fullName", " ")] 3 =
      (400, [], dbWild) ∧
    (postSearch dbWild 1 {} 3).1 = 200 ∧
    postSearch dbWild 1 { cedula := some "" } 3 = (400, [], dbWild) :=
  ⟨(search_entry_validation dbWild 1 [("cedula", ""), ("fullName", " ")]
      {} 3).1 (by decide),
   (search_entry_validation dbWild 1 [] {} 3).2.1 rfl,
   (search_entry_validation dbWild 1 [] { cedula := some "" } 3).2.2 rfl⟩

end SIPP
